import Mathlib

/-!
# Verification of the steemee static SPA server (`src/app.py`)

The program is a Flask application that serves a single-page-application
bundle: an ordered set of routes maps URL paths to files on disk and
assigns content types.  This file gives a shallow embedding of the
routing layer and of the Flask/Werkzeug file-serving primitives it
calls, and proves (or refutes) the specified properties.

## Embedding conventions

* Python strings (URL paths, filenames) are embedded as `List Char`
  (`PyStr`); the helper functions `pyStartsWith`, `pyEndsWith`,
  `pyContains`, `splitSegs` mirror Python's `str.startswith`,
  `str.endswith`, the `in` operator and splitting on `/`.
* The filesystem is an explicit read-only map `FS` from a normalized
  path (a list of segments, relative to the application root directory;
  a leading `".."` segment denotes a location outside the root) to the
  file's bytes.  Directories and absent files both map to `none`.
* MIME-type inference (`mimetypes.guess_type`, used by Werkzeug when no
  explicit mimetype is passed) is an abstract parameter
  `im : PyStr → PyStr` applied to the basename of the served file.
* The Flask/Werkzeug helpers `send_file`, `send_from_directory` and
  `safe_join` are embedded from their library semantics:
  `safe_join` normalizes the relative path and rejects it when it is
  absolute or escapes upward (`..`); `send_from_directory` returns a
  404 `NotFound` when `safe_join` rejects or the file is missing;
  `send_file` performs **no** safety check (the path is joined to the
  application root as-is) and raises an uncaught `FileNotFoundError`
  (surfaced as HTTP 500) when the file is missing.
-/

/-- A Python string, embedded as its list of characters. -/
abbrev PyStr := List Char

/-- Coercion from a Lean string literal to the embedded string type. -/
def pstr (s : String) : PyStr := s.data

/-- File contents: a list of byte values. -/
abbrev Bytes := List Nat

/-- The read-only filesystem, keyed by normalized path segments relative
to the application root.  A leading `".."` segment denotes a path outside
the root directory.  `none` means: no regular file there. -/
abbrev FS := List PyStr → Option Bytes

/-- `s.startswith(pre)` -/
def pyStartsWith (pre s : PyStr) : Bool := List.isPrefixOf pre s

/-- `s.endswith(suf)` -/
def pyEndsWith (suf s : PyStr) : Bool := List.isSuffixOf suf s

/-- `c in s` for a single character `c` -/
def pyContains (c : Char) (s : PyStr) : Bool := s.contains c

/-- Drop the last `n` characters (used to strip a known suffix). -/
def pyDropRight (n : Nat) (s : PyStr) : PyStr := (s.reverse.drop n).reverse

/-- Split a path string on the `/` separator (every occurrence, keeping
empty segments, as `posixpath` does before normalization). -/
def splitSegsAux : PyStr → PyStr → List PyStr
  | [], acc => [acc.reverse]
  | c :: rest, acc =>
    if c = '/' then acc.reverse :: splitSegsAux rest []
    else splitSegsAux rest (c :: acc)

/-- Split a path into its `/`-separated segments. -/
def splitSegs (s : PyStr) : List PyStr := splitSegsAux s []

/-- One step of `posixpath.normpath` over a reversed accumulator of
normalized segments: empty and `.` segments are dropped, `..` cancels a
preceding real segment and is kept when there is nothing left to cancel
(the path then points above the starting directory). -/
def normStep (acc : List PyStr) (seg : PyStr) : List PyStr :=
  if seg = [] ∨ seg = ['.'] then acc
  else if seg = ['.', '.'] then
    match acc with
    | [] => [['.', '.']]
    | top :: rest => if top = ['.', '.'] then seg :: top :: rest else rest
  else seg :: acc

/-- `posixpath.normpath` on a relative path, at the segment level:
collapses `.`, empty segments and interior `..`; leading `..` segments
survive and denote an escape above the starting directory. -/
def normPath (segs : List PyStr) : List PyStr := (segs.foldl normStep []).reverse

/-- Basename of a resolved path: its last segment. -/
def baseName (segs : List PyStr) : PyStr := segs.getLastD []

/-- The observable outcome of one request.
`ok` is an ordinary response (status, content type, body bytes);
`notFound` is a raised `werkzeug.exceptions.NotFound` (HTTP 404 with the
framework's error page); `internalError` is an exception that no handler
catches — Flask surfaces it as HTTP 500. -/
inductive HttpResult where
  | ok (status : Nat) (contentType : PyStr) (body : Bytes)
  | notFound
  | internalError
deriving DecidableEq, Repr

/-- HTTP status code of an outcome. -/
def HttpResult.status : HttpResult → Nat
  | .ok s _ _ => s
  | .notFound => 404
  | .internalError => 500

/-- Modelled from Werkzeug's `safe_join(directory, filename)`: the
relative part is normalized with `posixpath.normpath` and rejected
(result `None`) when it is absolute, equals `..`, or starts with `../`
— i.e. exactly when its normal form still escapes upward.  On success
the segments are appended to the directory. -/
def safe_join (dir : PyStr) (filename : PyStr) : Option (List PyStr) :=
  let n := normPath (splitSegs filename)
  if pyStartsWith (pstr "/") filename ∨ n.headD [] = ['.', '.'] then none
  else some (dir :: n)

/-- Modelled from Flask's `send_file(path, mimetype=...)` (delegating to
`werkzeug.utils.send_file`): the path is joined to the application root
with **no** safety check and the file is `stat`-ed; a missing file makes
`os.stat` raise `FileNotFoundError`, which no caller catches, so the
request ends as HTTP 500.  On success the response carries the given
mimetype, or one inferred from the file's basename when none is given. -/
def send_file (fs : FS) (im : PyStr → PyStr) (path : PyStr)
    (mimetype : Option PyStr) : HttpResult :=
  let segs := normPath (splitSegs path)
  match fs segs with
  | none => .internalError
  | some b => .ok 200 (mimetype.getD (im (baseName segs))) b

/-- Modelled from Flask's `send_from_directory(directory, path)`: the
path is resolved with `safe_join` (rejection → `NotFound`), then the
resolved file must exist (`os.path.isfile`, otherwise `NotFound`), and
is finally served with an inferred content type. -/
def send_from_directory (fs : FS) (im : PyStr → PyStr) (dir : PyStr)
    (filename : PyStr) : HttpResult :=
  match safe_join dir filename with
  | none => .notFound
  | some segs =>
    match fs segs with
    | none => .notFound
    | some b => .ok 200 (im (baseName segs)) b

/-- `app.py` line 7: `assets(filename)` — serve static files. -/
def assets (fs : FS) (im : PyStr → PyStr) (filename : PyStr) : HttpResult :=
  send_from_directory fs im (pstr "assets") filename

/-- `app.py` line 12: `javascript_files(filename)` — serve JavaScript
modules with the mimetype forced to `application/javascript`. -/
def javascript_files (fs : FS) (im : PyStr → PyStr) (filename : PyStr) : HttpResult :=
  send_file fs im (filename ++ pstr ".js") (some (pstr "application/javascript"))

/-- `app.py` line 17: `manifest()`. -/
def manifest (fs : FS) (im : PyStr → PyStr) : HttpResult :=
  send_file fs im (pstr "manifest.json") (some (pstr "application/json"))

/-- `app.py` line 21: `service_worker()`. -/
def service_worker (fs : FS) (im : PyStr → PyStr) : HttpResult :=
  send_file fs im (pstr "sw.js") (some (pstr "application/javascript"))

/-- `app.py` line 25: `favicon()` — no mimetype override. -/
def favicon (fs : FS) (im : PyStr → PyStr) : HttpResult :=
  send_file fs im (pstr "favicon.ico") none

/-- `app.py` line 30: `components(filename)`. -/
def components (fs : FS) (im : PyStr → PyStr) (filename : PyStr) : HttpResult :=
  if pyEndsWith (pstr ".js") filename then
    send_file fs im (pstr "components/" ++ filename) (some (pstr "application/javascript"))
  else send_from_directory fs im (pstr "components") filename

/-- `app.py` line 36: `services(filename)`. -/
def services (fs : FS) (im : PyStr → PyStr) (filename : PyStr) : HttpResult :=
  if pyEndsWith (pstr ".js") filename then
    send_file fs im (pstr "services/" ++ filename) (some (pstr "application/javascript"))
  else send_from_directory fs im (pstr "services") filename

/-- `app.py` line 42: `utils(filename)`. -/
def utils (fs : FS) (im : PyStr → PyStr) (filename : PyStr) : HttpResult :=
  if pyEndsWith (pstr ".js") filename then
    send_file fs im (pstr "utils/" ++ filename) (some (pstr "application/javascript"))
  else send_from_directory fs im (pstr "utils") filename

/-- `app.py` line 48: `views(filename)`. -/
def views (fs : FS) (im : PyStr → PyStr) (filename : PyStr) : HttpResult :=
  if pyEndsWith (pstr ".js") filename then
    send_file fs im (pstr "views/" ++ filename) (some (pstr "application/javascript"))
  else send_from_directory fs im (pstr "views") filename

/-- `app.py` line 54: `models(filename)`. -/
def models (fs : FS) (im : PyStr → PyStr) (filename : PyStr) : HttpResult :=
  if pyEndsWith (pstr ".js") filename then
    send_file fs im (pstr "models/" ++ filename) (some (pstr "application/javascript"))
  else send_from_directory fs im (pstr "models") filename

/-- `app.py` line 60: `controllers(filename)`. -/
def controllers (fs : FS) (im : PyStr → PyStr) (filename : PyStr) : HttpResult :=
  if pyEndsWith (pstr ".js") filename then
    send_file fs im (pstr "controllers/" ++ filename) (some (pstr "application/javascript"))
  else send_from_directory fs im (pstr "controllers") filename

/-- ASCII bytes of the literal body `"File not found"` returned by the
SPA fallback's 404 branch. -/
def fileNotFoundBody : Bytes := (pstr "File not found").map Char.toNat

/-- `app.py` line 69: `serve_spa(path)` — SPA fallback.  A Flask view
returning the plain tuple `("File not found", 404)` produces a status
404 response whose body is that text (Flask labels string responses
with its default `text/html` content type). -/
def serve_spa (fs : FS) (im : PyStr → PyStr) (path : PyStr) : HttpResult :=
  if pyContains '.' path && !pyEndsWith (pstr ".html") path then
    .ok 404 (pstr "text/html") fileNotFoundBody
  else send_file fs im (pstr "index.html") none

/-- A Werkzeug `<path:x>` converter (regex `[^/].*?`) accepts a
non-empty remainder that does not start with `/`. -/
def convMatch (rest : PyStr) : Bool := !rest.isEmpty && !pyStartsWith (pstr "/") rest

/-- The routing table of `app.py`: the registered rules tried in order,
first match wins, as the source registers them.  (Werkzeug sorts the
three argument-free rules `/manifest.json`, `/sw.js`, `/favicon.ico`
first; the only overlap this creates is `/sw.js`, where the bare-`.js`
rule and `service_worker` produce identical responses, so the orders
are observationally equal.)  A path matched by no rule at all — e.g.
one not starting with `/` — is a routing 404. -/
def handle (fs : FS) (im : PyStr → PyStr) (path : PyStr) : HttpResult :=
  if pyStartsWith (pstr "/assets/") path && convMatch (path.drop 8) then
    assets fs im (path.drop 8)
  else if pyStartsWith (pstr "/") path && pyEndsWith (pstr ".js") path &&
      convMatch (pyDropRight 3 (path.drop 1)) then
    javascript_files fs im (pyDropRight 3 (path.drop 1))
  else if path = pstr "/manifest.json" then manifest fs im
  else if path = pstr "/sw.js" then service_worker fs im
  else if path = pstr "/favicon.ico" then favicon fs im
  else if pyStartsWith (pstr "/components/") path && convMatch (path.drop 12) then
    components fs im (path.drop 12)
  else if pyStartsWith (pstr "/services/") path && convMatch (path.drop 10) then
    services fs im (path.drop 10)
  else if pyStartsWith (pstr "/utils/") path && convMatch (path.drop 7) then
    utils fs im (path.drop 7)
  else if pyStartsWith (pstr "/views/") path && convMatch (path.drop 7) then
    views fs im (path.drop 7)
  else if pyStartsWith (pstr "/models/") path && convMatch (path.drop 8) then
    models fs im (path.drop 8)
  else if pyStartsWith (pstr "/controllers/") path && convMatch (path.drop 13) then
    controllers fs im (path.drop 13)
  else if path = pstr "/" then serve_spa fs im []
  else if pyStartsWith (pstr "/") path && convMatch (path.drop 1) then
    serve_spa fs im (path.drop 1)
  else .notFound

/-- One full request/response cycle with the filesystem threaded as
explicit state.  Every view function of `app.py` only reads the
filesystem (`send_file` / `send_from_directory`), so the state after
the request is the state before it. -/
def handleReq (fs : FS) (im : PyStr → PyStr) (path : PyStr) : HttpResult × FS :=
  (handle fs im path, fs)

/-! ## Concrete fixtures used by witnesses and counterexample evaluations -/

/-- A concrete MIME-inference function: everything is inferred as
`application/octet-stream` (the Werkzeug fallback). -/
def imOctets : PyStr → PyStr := fun _ => pstr "application/octet-stream"

/-- An empty filesystem: no file exists. -/
def fsNone : FS := fun _ => none

/-- A small concrete filesystem.  The key `["..", "secret.js"]` is a
file lying **outside** the application root (one directory above it). -/
def fsDemo : FS := fun segs =>
  if segs = [pstr "index.html"] then some [1, 2, 3]
  else if segs = [pstr "..", pstr "secret.js"] then some [42, 42]
  else if segs = [pstr "lib", pstr "util.js"] then some [7]
  else if segs = [pstr "assets", pstr "img", pstr "a.png"] then some [9]
  else if segs = [pstr "components", pstr "a.js"] then some [5]
  else if segs = [pstr "manifest.json"] then some [10]
  else if segs = [pstr "sw.js"] then some [11]
  else if segs = [pstr "favicon.ico"] then some [12]
  else none

/-! ## Helper lemmas -/

/-- Serving `index.html` through `send_file` with no mimetype override
succeeds with the file's bytes and an inferred content type. -/
theorem send_index {fs : FS} {im : PyStr → PyStr} {b : Bytes}
    (hidx : fs [pstr "index.html"] = some b) :
    send_file fs im (pstr "index.html") none = .ok 200 (im (pstr "index.html")) b := by
  show (match fs [pstr "index.html"] with
        | none => HttpResult.internalError
        | some bb => HttpResult.ok 200 (im (pstr "index.html")) bb) = _
  rw [hidx]

/-! ## Claim theorems -/

/-- C1: the SPA fallback returns a 404 response with the plain-text body
`"File not found"` whenever the path contains a dot and does not end in
`.html`, and otherwise (any other path, including the empty one) returns
status 200 with body equal to the bytes of `index.html`, regardless of
the requested path. -/
theorem spa_fallback_spec (fs : FS) (im : PyStr → PyStr) (p : PyStr) (b : Bytes)
    (hidx : fs [pstr "index.html"] = some b) :
    (pyContains '.' p = true → pyEndsWith (pstr ".html") p = false →
      serve_spa fs im p = .ok 404 (pstr "text/html") fileNotFoundBody) ∧
    (pyContains '.' p = false ∨ pyEndsWith (pstr ".html") p = true →
      serve_spa fs im p = .ok 200 (im (pstr "index.html")) b) := by
  constructor
  · intro h1 h2
    simp [serve_spa, h1, h2]
  · intro h
    have e : serve_spa fs im p = send_file fs im (pstr "index.html") none := by
      unfold serve_spa
      split
      · rename_i hc
        rcases h with h | h <;> simp [h] at hc
      · rfl
    rw [e, send_index hidx]

/-- C1 witness: a dotted non-`.html` path is rejected with the 404 text
and the empty path is answered with the bytes of `index.html`. -/
theorem spa_fallback_spec_witness :
    serve_spa fsDemo imOctets (pstr "nonexistent.png") =
      .ok 404 (pstr "text/html") fileNotFoundBody ∧
    serve_spa fsDemo imOctets [] = .ok 200 (imOctets (pstr "index.html")) [1, 2, 3] :=
  ⟨(spa_fallback_spec fsDemo imOctets (pstr "nonexistent.png") [1, 2, 3]
      (by decide)).1 (by decide) (by decide),
   (spa_fallback_spec fsDemo imOctets [] [1, 2, 3] (by decide)).2 (Or.inl (by decide))⟩

/-- C2 (code bug): a request for `/components/../../secret.js` — a
`..`-style path ending in `.js` — is answered with status 200 and the
bytes of `../secret.js`, a file lying outside the application root,
because the `.js` branches call `send_file`, which performs no
traversal check.  The claim demands NotFound/Forbidden here. -/
theorem traversal_js_serves_outside_root :
    fsDemo [pstr "..", pstr "secret.js"] = some [42, 42] ∧
    handle fsDemo imOctets (pstr "/components/../../secret.js") =
      .ok 200 (pstr "application/javascript") [42, 42] :=
  ⟨by decide, by decide⟩

/-- C4 (code bug): a bare-`.js` request for a file that does not exist
ends in an uncaught `FileNotFoundError` — HTTP 500 — because
`javascript_files` uses `send_file` with no existence check; the claim
demands NotFound (HTTP 404). -/
theorem missing_js_internal_error :
    handle fsNone imOctets (pstr "/app.js") = .internalError ∧
    (handle fsNone imOctets (pstr "/app.js")).status = 500 :=
  ⟨by decide, by decide⟩

/-- C5 (code bug): a category request whose `<rest>` ends in `.js` and
whose file is missing ends in an uncaught `FileNotFoundError` — HTTP
500 — instead of the claimed NotFound; the non-`.js` branch (which uses
`send_from_directory`) does return NotFound as claimed. -/
theorem missing_category_js_internal_error :
    handle fsNone imOctets (pstr "/components/missing.js") = .internalError ∧
    (handle fsNone imOctets (pstr "/components/missing.js")).status = 500 ∧
    handle fsNone imOctets (pstr "/components/missing.css") = .notFound :=
  ⟨by decide, by decide, by decide⟩

/-- C8: request handling is deterministic and mutation-free — one
request leaves the filesystem state unchanged, and running the same
request again on the resulting state yields the identical response. -/
theorem handler_read_only_idempotent (fs : FS) (im : PyStr → PyStr) (p : PyStr) :
    (handleReq fs im p).2 = fs ∧
    (handleReq (handleReq fs im p).2 im p).1 = (handleReq fs im p).1 :=
  ⟨rfl, rfl⟩

/-- If `send_file` is called with an explicit mimetype and produces an
ordinary response, that response carries exactly the given mimetype. -/
theorem send_file_some_mime {fs : FS} {im : PyStr → PyStr} {p m : PyStr}
    {s : Nat} {ct : PyStr} {b : Bytes}
    (h : send_file fs im p (some m) = .ok s ct b) : ct = m := by
  rw [show send_file fs im p (some m) =
      (match fs (normPath (splitSegs p)) with
       | none => HttpResult.internalError
       | some bb => HttpResult.ok 200 m bb) from rfl] at h
  cases hfs : fs (normPath (splitSegs p)) <;> rw [hfs] at h <;> simp_all

/-- C3: every ordinary (status 200) response produced by the bare-`.js`
rule (`javascript_files`) or by a category handler applied to a filename
ending in `.js` carries exactly the content type
`application/javascript`, independent of the file's bytes and of
extension-based inference. -/
theorem js_mime_forced (fs : FS) (im : PyStr → PyStr) (name : PyStr)
    (s : Nat) (ct : PyStr) (b : Bytes)
    (h : javascript_files fs im name = .ok s ct b ∨
      (pyEndsWith (pstr ".js") name = true ∧
        (components fs im name = .ok s ct b ∨ services fs im name = .ok s ct b ∨
         utils fs im name = .ok s ct b ∨ views fs im name = .ok s ct b ∨
         models fs im name = .ok s ct b ∨ controllers fs im name = .ok s ct b))) :
    ct = pstr "application/javascript" := by
  rcases h with h | ⟨hjs, h⟩
  · unfold javascript_files at h
    exact send_file_some_mime h
  · rcases h with h | h | h | h | h | h
    · unfold components at h
      rw [if_pos hjs] at h
      exact send_file_some_mime h
    · unfold services at h
      rw [if_pos hjs] at h
      exact send_file_some_mime h
    · unfold utils at h
      rw [if_pos hjs] at h
      exact send_file_some_mime h
    · unfold views at h
      rw [if_pos hjs] at h
      exact send_file_some_mime h
    · unfold models at h
      rw [if_pos hjs] at h
      exact send_file_some_mime h
    · unfold controllers at h
      rw [if_pos hjs] at h
      exact send_file_some_mime h

/-- C3 witness: the category handler `components` serves the existing
file `a.js` successfully and the theorem yields its content type. -/
theorem js_mime_forced_witness :
    components fsDemo imOctets (pstr "a.js") =
      .ok 200 (pstr "application/javascript") [5] ∧
    pstr "application/javascript" = pstr "application/javascript" :=
  ⟨by decide,
   js_mime_forced fsDemo imOctets (pstr "a.js") 200 (pstr "application/javascript") [5]
     (Or.inr ⟨by decide, Or.inl (by decide)⟩)⟩

/-- C6: `/manifest.json` is served with content type `application/json`,
`/sw.js` with `application/javascript`, and `/favicon.ico` with the
content type inferred from the file (no override). -/
theorem named_root_files_spec (fs : FS) (im : PyStr → PyStr) (b1 b2 b3 : Bytes)
    (h1 : fs [pstr "manifest.json"] = some b1)
    (h2 : fs [pstr "sw.js"] = some b2)
    (h3 : fs [pstr "favicon.ico"] = some b3) :
    handle fs im (pstr "/manifest.json") = .ok 200 (pstr "application/json") b1 ∧
    handle fs im (pstr "/sw.js") = .ok 200 (pstr "application/javascript") b2 ∧
    handle fs im (pstr "/favicon.ico") = .ok 200 (im (pstr "favicon.ico")) b3 := by
  refine ⟨?_, ?_, ?_⟩
  · have e : handle fs im (pstr "/manifest.json") =
        (match fs [pstr "manifest.json"] with
         | none => HttpResult.internalError
         | some bb => HttpResult.ok 200 (pstr "application/json") bb) := rfl
    rw [e, h1]
  · have e : handle fs im (pstr "/sw.js") =
        (match fs [pstr "sw.js"] with
         | none => HttpResult.internalError
         | some bb => HttpResult.ok 200 (pstr "application/javascript") bb) := rfl
    rw [e, h2]
  · have e : handle fs im (pstr "/favicon.ico") =
        (match fs [pstr "favicon.ico"] with
         | none => HttpResult.internalError
         | some bb => HttpResult.ok 200 (im (pstr "favicon.ico")) bb) := rfl
    rw [e, h3]

/-- C6 witness: the three named root files of the demo filesystem are
served with the claimed content types. -/
theorem named_root_files_spec_witness :
    handle fsDemo imOctets (pstr "/manifest.json") =
      .ok 200 (pstr "application/json") [10] ∧
    handle fsDemo imOctets (pstr "/sw.js") =
      .ok 200 (pstr "application/javascript") [11] ∧
    handle fsDemo imOctets (pstr "/favicon.ico") =
      .ok 200 (imOctets (pstr "favicon.ico")) [12] :=
  named_root_files_spec fsDemo imOctets [10] [11] [12] (by decide) (by decide) (by decide)

/-- C9: a request for a bare category prefix with no trailing segment is
not matched by the category rule (whose pattern requires a trailing
`/<rest>`); it falls through to the SPA fallback and, containing no dot,
is answered with status 200 and the bytes of `index.html`. -/
theorem bare_category_prefix_spa (fs : FS) (im : PyStr → PyStr) (b : Bytes)
    (hidx : fs [pstr "index.html"] = some b) :
    handle fs im (pstr "/components") = .ok 200 (im (pstr "index.html")) b ∧
    handle fs im (pstr "/services") = .ok 200 (im (pstr "index.html")) b ∧
    handle fs im (pstr "/utils") = .ok 200 (im (pstr "index.html")) b ∧
    handle fs im (pstr "/views") = .ok 200 (im (pstr "index.html")) b ∧
    handle fs im (pstr "/models") = .ok 200 (im (pstr "index.html")) b ∧
    handle fs im (pstr "/controllers") = .ok 200 (im (pstr "index.html")) b := by
  refine ⟨?_, ?_, ?_, ?_, ?_, ?_⟩ <;>
    exact Eq.trans (by rfl) (send_index hidx)

/-- C9 witness: each of the six bare category prefixes is answered with
the bytes of `index.html` on the demo filesystem. -/
theorem bare_category_prefix_spa_witness :
    handle fsDemo imOctets (pstr "/components") =
      .ok 200 (imOctets (pstr "index.html")) [1, 2, 3] ∧
    handle fsDemo imOctets (pstr "/services") =
      .ok 200 (imOctets (pstr "index.html")) [1, 2, 3] ∧
    handle fsDemo imOctets (pstr "/utils") =
      .ok 200 (imOctets (pstr "index.html")) [1, 2, 3] ∧
    handle fsDemo imOctets (pstr "/views") =
      .ok 200 (imOctets (pstr "index.html")) [1, 2, 3] ∧
    handle fsDemo imOctets (pstr "/models") =
      .ok 200 (imOctets (pstr "index.html")) [1, 2, 3] ∧
    handle fsDemo imOctets (pstr "/controllers") =
      .ok 200 (imOctets (pstr "index.html")) [1, 2, 3] :=
  bare_category_prefix_spa fsDemo imOctets [1, 2, 3] (by decide)

/-- C7: a request `/assets/<rest>` is dispatched to the `assets`
handler, which resolves `<rest>` relative to the `assets` root: a
`..`-escape (normal form starting with `..`) and an absent file both
yield NotFound, and an existing file is served with status 200, its
bytes, and a content type inferred from its basename. -/
theorem assets_route_spec (fs : FS) (im : PyStr → PyStr) (rest : PyStr) :
    (∀ hconv : convMatch rest = true,
      handle fs im (pstr "/assets/" ++ rest) = assets fs im rest) ∧
    ((normPath (splitSegs rest)).headD [] = ['.', '.'] →
      assets fs im rest = .notFound) ∧
    (∀ segs, safe_join (pstr "assets") rest = some segs → fs segs = none →
      assets fs im rest = .notFound) ∧
    (∀ segs b, safe_join (pstr "assets") rest = some segs → fs segs = some b →
      assets fs im rest = .ok 200 (im (baseName segs)) b) := by
  refine ⟨?_, ?_, ?_, ?_⟩
  · intro hconv
    have hpre : pyStartsWith (pstr "/assets/") (pstr "/assets/" ++ rest) = true := by
      simp [pyStartsWith]
    have hdrop : (pstr "/assets/" ++ rest).drop 8 = rest := List.drop_left' (by decide)
    simp [handle, hpre, hdrop, hconv]
  · intro hesc
    have hsj : safe_join (pstr "assets") rest = none := by
      show (if pyStartsWith (pstr "/") rest ∨
            (normPath (splitSegs rest)).headD [] = ['.', '.'] then none
            else some (pstr "assets" :: normPath (splitSegs rest))) = none
      rw [if_pos (Or.inr hesc)]
    unfold assets send_from_directory
    rw [hsj]
  · intro segs hsj hfs
    unfold assets send_from_directory
    rw [hsj]
    show (match fs segs with
          | none => HttpResult.notFound
          | some b => HttpResult.ok 200 (im (baseName segs)) b) = _
    rw [hfs]
  · intro segs b hsj hfs
    unfold assets send_from_directory
    rw [hsj]
    show (match fs segs with
          | none => HttpResult.notFound
          | some bb => HttpResult.ok 200 (im (baseName segs)) bb) = _
    rw [hfs]

/-- C7 witness: on the demo filesystem, `/assets/img/a.png` routes to
the `assets` handler; a `..`-escape and a missing file give NotFound,
and the existing `img/a.png` is served with its bytes. -/
theorem assets_route_spec_witness :
    handle fsDemo imOctets (pstr "/assets/" ++ pstr "img/a.png") =
      assets fsDemo imOctets (pstr "img/a.png") ∧
    assets fsDemo imOctets (pstr "../secret.js") = .notFound ∧
    assets fsDemo imOctets (pstr "img/missing.png") = .notFound ∧
    assets fsDemo imOctets (pstr "img/a.png") =
      .ok 200 (imOctets (baseName [pstr "assets", pstr "img", pstr "a.png"])) [9] :=
  ⟨(assets_route_spec fsDemo imOctets (pstr "img/a.png")).1 (by decide),
   (assets_route_spec fsDemo imOctets (pstr "../secret.js")).2.1 (by decide),
   (assets_route_spec fsDemo imOctets (pstr "img/missing.png")).2.2.1
     [pstr "assets", pstr "img", pstr "missing.png"] (by decide) (by decide),
   (assets_route_spec fsDemo imOctets (pstr "img/a.png")).2.2.2
     [pstr "assets", pstr "img", pstr "a.png"] [9] (by decide) (by decide)⟩

/-- C10: the bare-`.js` rule also matches multi-segment paths
`/<name>.js` whose first segment is not the assets prefix, `/sw.js`, or
one of the six category prefixes: such a request is handled by
`javascript_files`, i.e. the file `<name>.js` is resolved relative to
the application root and served with the content type forced to
`application/javascript`. -/
theorem bare_js_multi_segment (fs : FS) (im : PyStr → PyStr) (name : PyStr)
    (hconv : convMatch name = true)
    (hA : pyStartsWith (pstr "/assets/") (pstr "/" ++ (name ++ pstr ".js")) = false)
    (hSw : pstr "/" ++ (name ++ pstr ".js") ≠ pstr "/sw.js")
    (hC : pyStartsWith (pstr "/components/") (pstr "/" ++ (name ++ pstr ".js")) = false)
    (hS : pyStartsWith (pstr "/services/") (pstr "/" ++ (name ++ pstr ".js")) = false)
    (hU : pyStartsWith (pstr "/utils/") (pstr "/" ++ (name ++ pstr ".js")) = false)
    (hV : pyStartsWith (pstr "/views/") (pstr "/" ++ (name ++ pstr ".js")) = false)
    (hM : pyStartsWith (pstr "/models/") (pstr "/" ++ (name ++ pstr ".js")) = false)
    (hT : pyStartsWith (pstr "/controllers/") (pstr "/" ++ (name ++ pstr ".js")) = false) :
    handle fs im (pstr "/" ++ (name ++ pstr ".js")) =
      send_file fs im (name ++ pstr ".js") (some (pstr "application/javascript")) ∧
    ∀ b, fs (normPath (splitSegs (name ++ pstr ".js"))) = some b →
      handle fs im (pstr "/" ++ (name ++ pstr ".js")) =
        .ok 200 (pstr "application/javascript") b := by
  have hstart : pyStartsWith (pstr "/") (pstr "/" ++ (name ++ pstr ".js")) = true := by
    simp [pyStartsWith]
  have hend : pyEndsWith (pstr ".js") (pstr "/" ++ (name ++ pstr ".js")) = true := by
    simp only [pyEndsWith, List.isSuffixOf_iff_suffix]
    exact (List.suffix_append name (pstr ".js")).trans
      (List.suffix_append (pstr "/") (name ++ pstr ".js"))
  have hdrop1 : (pstr "/" ++ (name ++ pstr ".js")).drop 1 = name ++ pstr ".js" :=
    List.drop_left' (by decide)
  have hdropR : pyDropRight 3 (name ++ pstr ".js") = name := by
    unfold pyDropRight
    rw [List.reverse_append]
    rw [show (pstr ".js").reverse = (['s', 'j', '.'] : PyStr) from by decide]
    rw [List.drop_left' (show (['s', 'j', '.'] : PyStr).length = 3 from by decide)]
    rw [List.reverse_reverse]
  have h1 : handle fs im (pstr "/" ++ (name ++ pstr ".js")) =
      send_file fs im (name ++ pstr ".js") (some (pstr "application/javascript")) := by
    simp [handle, hA, hstart, hend, hdrop1, hdropR, hconv, javascript_files]
  refine ⟨h1, fun b hb => ?_⟩
  rw [h1]
  rw [show send_file fs im (name ++ pstr ".js") (some (pstr "application/javascript")) =
      (match fs (normPath (splitSegs (name ++ pstr ".js"))) with
       | none => HttpResult.internalError
       | some bb => HttpResult.ok 200 (pstr "application/javascript") bb) from rfl]
  rw [hb]

/-- C10 witness: `GET /lib/util.js` — two segments, no routing prefix —
is served from `lib/util.js` under the root with the forced JavaScript
content type. -/
theorem bare_js_multi_segment_witness :
    handle fsDemo imOctets (pstr "/" ++ (pstr "lib/util" ++ pstr ".js")) =
      .ok 200 (pstr "application/javascript") [7] :=
  (bare_js_multi_segment fsDemo imOctets (pstr "lib/util") (by decide) (by decide)
    (by decide) (by decide) (by decide) (by decide) (by decide) (by decide)
    (by decide)).2 [7] (by decide)
